import Mathlib

/-!
Shallow embedding of the progress & level-progression engine of the
kids-tutor reading-practice app, together with theorems checking the
natural-language specification against it.

The embedding follows the source:
* the session accumulator and its operations (`startSession`,
  `addWordToSession`, the accuracy computation of `endSession`) from
  `useLearningSession`;
* the SQL functions `update_word_progress` and `update_user_stats` from the
  migration file;
* `updateDailyGoals`, `updateStreak` and `checkLevelProgression` from
  `useLearningSession`;
* the level ladder `LEVEL_REQUIREMENTS` and the second `checkLevelProgression`
  walk from `useLevelProgression`.

Machine numerics (SQL `integer`, JS numbers used as counters) are modelled as
`Nat`/`Int`; SQL `numeric` / JS fractional values as `ℚ`.
-/

namespace KidsTutor

/-- Session type tag, `'chat' | 'practice'` in the source. -/
inductive SessionType where
  | chat
  | practice
deriving DecidableEq

/-- Word difficulty tag, `'easy' | 'medium' | 'hard'` in the source. -/
inductive Difficulty where
  | easy
  | medium
  | hard
deriving DecidableEq

/-- The in-memory session accumulator returned by `startSession` and threaded
through `addWordToSession` / `endSession` (useLearningSession). -/
structure Session where
  sessionType : SessionType
  startTime : Nat
  wordsPracticed : List String
  correctPronunciations : Nat
  totalAttempts : Nat
deriving DecidableEq

/-- `startSession` from useLearningSession: fresh accumulator; `now` stands for
`Date.now()`. -/
def startSession (sessionType : SessionType) (now : Nat) : Session :=
  { sessionType := sessionType
    startTime := now
    wordsPracticed := []
    correctPronunciations := 0
    totalAttempts := 0 }

/-- `addWordToSession` from useLearningSession: appends the word, bumps the
attempt count, bumps the correct count when `isCorrect`.  (The `difficulty`
argument is only forwarded to the word-progress side effect, which is modelled
separately by `update_word_progress`.) -/
def addWordToSession (session : Session) (word : String) (isCorrect : Bool)
    (_difficulty : Difficulty) : Session :=
  { session with
    wordsPracticed := session.wordsPracticed ++ [word]
    totalAttempts := session.totalAttempts + 1
    correctPronunciations := session.correctPronunciations + (if isCorrect then 1 else 0) }

/-- The accuracy computed by `endSession`:
`session.totalAttempts > 0 ? correctPronunciations / totalAttempts * 100 : 0`. -/
def accuracyRate (session : Session) : ℚ :=
  if session.totalAttempts > 0 then
    ((session.correctPronunciations : ℚ) / (session.totalAttempts : ℚ)) * 100
  else 0

/-- Replay of a session: `startSession` followed by one `addWordToSession` per
attempt event `(word, isCorrect, difficulty)`. -/
def runSessionEvents (sessionType : SessionType) (now : Nat)
    (events : List (String × Bool × Difficulty)) : Session :=
  events.foldl (fun s e => addWordToSession s e.1 e.2.1 e.2.2)
    (startSession sessionType now)

/-- A `word_progress` row (migration `20250628123486`): counts, difficulty and
derived mastery level for one (user, word) pair. -/
structure WordProgress where
  word : String
  difficulty : Difficulty
  times_practiced : Nat
  times_correct : Nat
  mastery_level : Nat
deriving DecidableEq

/-- The `CASE` expression of the SQL function `update_word_progress`, applied
to the post-increment counts `tp` (times practiced) and `tc` (times correct):
accuracy `tc / tp` against the 0.9 / 0.7 / 0.5 thresholds with the practiced
count gates. -/
def masteryLevelCase (tp tc : Nat) : Nat :=
  if (tc : ℚ) / (tp : ℚ) ≥ 9 / 10 ∧ tp ≥ 5 then 100
  else if (tc : ℚ) / (tp : ℚ) ≥ 7 / 10 ∧ tp ≥ 3 then 75
  else if (tc : ℚ) / (tp : ℚ) ≥ 1 / 2 then 50
  else 25

/-- Mastery tier as the specification words it ("rolling accuracy" =
times_correct / times_practiced, post-increment): 100 if accuracy ≥ 0.90 and
practiced ≥ 5, else 75 if accuracy ≥ 0.70 and practiced ≥ 3, else 50 if
accuracy ≥ 0.50, else 25.  Stated separately from `masteryLevelCase` so the
two can be compared. -/
def masteryTierSpec (tp tc : Nat) : Nat :=
  if (tc : ℚ) / (tp : ℚ) ≥ 9 / 10 ∧ tp ≥ 5 then 100
  else if (tc : ℚ) / (tp : ℚ) ≥ 7 / 10 ∧ tp ≥ 3 then 75
  else if (tc : ℚ) / (tp : ℚ) ≥ 1 / 2 then 50
  else 25

/-- The SQL function `update_word_progress` (migration `20250628123486`) for a
single (user, word) row.  `none` is the missing-row case: the `INSERT` branch
runs, writing counts `(1, correct ? 1 : 0)`; it does not assign
`mastery_level`, so the row keeps the column default `0` from the
`word_progress` table definition.  `some w` is the `ON CONFLICT DO UPDATE`
branch: both counters are incremented and `mastery_level` is recomputed from
the post-increment counts. -/
def update_word_progress (row : Option WordProgress) (word : String)
    (difficulty : Difficulty) (correct : Bool) : WordProgress :=
  match row with
  | none =>
      { word := word
        difficulty := difficulty
        times_practiced := 1
        times_correct := if correct then 1 else 0
        mastery_level := 0 }
  | some w =>
      { w with
        times_practiced := w.times_practiced + 1
        times_correct := w.times_correct + (if correct then 1 else 0)
        mastery_level :=
          masteryLevelCase (w.times_practiced + 1)
            (w.times_correct + (if correct then 1 else 0)) }

/-- A finite sequence of `update_word_progress` calls for one (user, word)
pair, starting from no row; each element of `events` is the `isCorrect` flag
of one attempt. -/
def runWordProgress (word : String) (difficulty : Difficulty)
    (events : List Bool) : Option WordProgress :=
  events.foldl (fun st correct => some (update_word_progress st word difficulty correct)) none

/-- The fields of a `profiles` row that the engine reads and writes
(migration `20250628123486`): level, lifetime totals, rolling accuracy and the
two streak counters. -/
structure Profile where
  level : Nat
  total_words_learned : Nat
  total_practice_time : Nat
  accuracy_rate : ℚ
  current_streak : Nat
  longest_streak : Nat
deriving DecidableEq

/-- The SQL function `update_user_stats` (migration `20250628123486`): adds the
deltas to the lifetime totals and replaces `accuracy_rate` by the two-point
average `(accuracy_rate + p_accuracy) / 2`.  No other column is assigned. -/
def update_user_stats (p : Profile) (p_words_learned : Nat)
    (p_practice_time : Nat) (p_accuracy : ℚ) : Profile :=
  { p with
    total_words_learned := p.total_words_learned + p_words_learned
    total_practice_time := p.total_practice_time + p_practice_time
    accuracy_rate := (p.accuracy_rate + p_accuracy) / 2 }

/-- The metric tuple both level walks read: mastered-word count,
`profile.accuracy_rate`, `profile.current_streak`, and practice minutes
(`Math.floor(profile.total_practice_time / 60)`). -/
structure Metrics where
  masteredWords : Nat
  accuracy : ℚ
  streak : Nat
  practiceTimeMinutes : Nat

/-- One entry of the `levelRequirements` ladder inlined in
`useLearningSession.checkLevelProgression`. -/
structure Requirement where
  level : Nat
  words : Nat
  accuracy : Nat
  streak : Nat
  time : Nat
deriving DecidableEq

/-- The 10-entry `levelRequirements` ladder from
`useLearningSession.checkLevelProgression`. -/
def levelRequirements : List Requirement :=
  [ { level := 1, words := 0, accuracy := 0, streak := 0, time := 0 }
  , { level := 2, words := 25, accuracy := 60, streak := 3, time := 30 }
  , { level := 3, words := 75, accuracy := 70, streak := 7, time := 90 }
  , { level := 4, words := 150, accuracy := 75, streak := 14, time := 180 }
  , { level := 5, words := 250, accuracy := 80, streak := 21, time := 300 }
  , { level := 6, words := 400, accuracy := 85, streak := 30, time := 480 }
  , { level := 7, words := 600, accuracy := 88, streak := 45, time := 720 }
  , { level := 8, words := 850, accuracy := 90, streak := 60, time := 1000 }
  , { level := 9, words := 1200, accuracy := 92, streak := 90, time := 1440 }
  , { level := 10, words := 1500, accuracy := 95, streak := 120, time := 2000 } ]

/-- `meetsRequirements` from `useLearningSession.checkLevelProgression`: all
four metrics reach the entry's thresholds. -/
def meetsRequirements (m : Metrics) (r : Requirement) : Bool :=
  decide (m.masteredWords ≥ r.words) && decide (m.accuracy ≥ (r.accuracy : ℚ)) &&
    decide (m.streak ≥ r.streak) && decide (m.practiceTimeMinutes ≥ r.time)

/-- The ladder walk of `useLearningSession.checkLevelProgression`: starting
from `qualifiedLevel = 1`, take each entry in order; on success record its
level and continue, on the first failure stop. -/
def qualifiedLevelWalk (m : Metrics) : List Requirement → Nat → Nat
  | [], q => q
  | r :: rs, q =>
      if meetsRequirements m r then qualifiedLevelWalk m rs r.level else q

/-- The qualified level computed by `useLearningSession.checkLevelProgression`
from a metric tuple. -/
def qualifiedLevel (m : Metrics) : Nat :=
  qualifiedLevelWalk m levelRequirements 1

/-- The metric tuple `useLearningSession.checkLevelProgression` builds from the
profile and the mastered-word count. -/
def metricsOf (profile : Profile) (masteredWords : Nat) : Metrics :=
  { masteredWords := masteredWords
    accuracy := profile.accuracy_rate
    streak := profile.current_streak
    practiceTimeMinutes := profile.total_practice_time / 60 }

/-- Achievement type tags used by the level progression code
(`'level_up'` and `'milestone'`). -/
inductive AchievementType where
  | level_up
  | milestone
deriving DecidableEq

/-- An `achievements` row as inserted by the level progression code; the
`description` column (free prose) is omitted, the identifying
`achievement_type`, `title` and `icon` are kept. -/
structure Achievement where
  achievement_type : AchievementType
  title : String
  icon : String
deriving DecidableEq

/-- `getLevelIcon` from useLearningSession:
`icons[Math.min(level - 1, icons.length - 1)]`. -/
def getLevelIcon (level : Nat) : String :=
  let icons := ["🌱", "🌿", "🌳", "⭐", "🌟", "💫", "🏆", "👑", "💎", "🔥"]
  icons.getD (min (level - 1) (icons.length - 1)) ""

/-- `checkLevelProgression` from useLearningSession, as a function from the
profile row and the mastered-word count (the `word_progress` rows with
`mastery_level ≥ 75`) to the updated profile and the list of `achievements`
rows inserted.  When `qualifiedLevel > profile.level` the profile's level is
set and one `level_up` achievement is inserted (plus one `milestone`
achievement when the new level is 5 or 10); otherwise nothing happens. -/
def checkLevelProgression (profile : Profile) (masteredWords : Nat) :
    Profile × List Achievement :=
  let q := qualifiedLevel (metricsOf profile masteredWords)
  if q > profile.level then
    ({ profile with level := q },
      { achievement_type := AchievementType.level_up
        title := "Level " ++ toString q ++ " Reached!"
        icon := getLevelIcon q } ::
      (if q = 5 then
        [{ achievement_type := AchievementType.milestone
           title := "Reading Star ⭐", icon := "⭐" }]
      else if q = 10 then
        [{ achievement_type := AchievementType.milestone
           title := "Reading Buddy Master 🏆", icon := "🏆" }]
      else []))
  else (profile, [])

/-- One entry of the `LEVEL_REQUIREMENTS` ladder from `useLevelProgression`
(useProfile.ts). -/
structure LevelRequirements where
  level : Nat
  minWordsLearned : Nat
  minAccuracy : Nat
  minStreakDays : Nat
  minPracticeTime : Nat
  specialRequirements : List String
deriving DecidableEq

/-- The 10-entry `LEVEL_REQUIREMENTS` ladder from `useLevelProgression`. -/
def LEVEL_REQUIREMENTS : List LevelRequirements :=
  [ { level := 1, minWordsLearned := 0, minAccuracy := 0, minStreakDays := 0,
      minPracticeTime := 0, specialRequirements := [] }
  , { level := 2, minWordsLearned := 25, minAccuracy := 60, minStreakDays := 3,
      minPracticeTime := 30,
      specialRequirements := ["Complete first chat session", "Try pronunciation practice"] }
  , { level := 3, minWordsLearned := 75, minAccuracy := 70, minStreakDays := 7,
      minPracticeTime := 90,
      specialRequirements := ["Master 10 easy words", "Use app for 7 consecutive days"] }
  , { level := 4, minWordsLearned := 150, minAccuracy := 75, minStreakDays := 14,
      minPracticeTime := 180,
      specialRequirements := ["Master 20 medium words", "Achieve 80% accuracy in practice"] }
  , { level := 5, minWordsLearned := 250, minAccuracy := 80, minStreakDays := 21,
      minPracticeTime := 300,
      specialRequirements := ["Master 15 hard words", "Complete 50 practice sessions"] }
  , { level := 6, minWordsLearned := 400, minAccuracy := 85, minStreakDays := 30,
      minPracticeTime := 480,
      specialRequirements := ["Master 30 hard words", "Maintain 30-day streak"] }
  , { level := 7, minWordsLearned := 600, minAccuracy := 88, minStreakDays := 45,
      minPracticeTime := 720,
      specialRequirements := ["Reading Champion achievement", "Help others learn"] }
  , { level := 8, minWordsLearned := 850, minAccuracy := 90, minStreakDays := 60,
      minPracticeTime := 1000,
      specialRequirements := ["Master 100 words total", "Pronunciation expert"] }
  , { level := 9, minWordsLearned := 1200, minAccuracy := 92, minStreakDays := 90,
      minPracticeTime := 1440,
      specialRequirements := ["Learning mentor", "Advanced difficulty mastery"] }
  , { level := 10, minWordsLearned := 1500, minAccuracy := 95, minStreakDays := 120,
      minPracticeTime := 2000,
      specialRequirements := ["Reading Buddy Master", "Perfect pronunciation streak"] } ]

/-- The `meetsRequirements` test of `useLevelProgression.checkLevelProgression`
over a `LEVEL_REQUIREMENTS` entry. -/
def meetsRequirementsUseProfile (m : Metrics) (r : LevelRequirements) : Bool :=
  decide (m.masteredWords ≥ r.minWordsLearned) && decide (m.accuracy ≥ (r.minAccuracy : ℚ)) &&
    decide (m.streak ≥ r.minStreakDays) && decide (m.practiceTimeMinutes ≥ r.minPracticeTime)

/-- The ladder walk of `useLevelProgression.checkLevelProgression`. -/
def qualifiedLevelWalkUseProfile (m : Metrics) : List LevelRequirements → Nat → Nat
  | [], q => q
  | r :: rs, q =>
      if meetsRequirementsUseProfile m r then qualifiedLevelWalkUseProfile m rs r.level else q

/-- The qualified level computed by `useLevelProgression.checkLevelProgression`
from a metric tuple. -/
def qualifiedLevelUseProfile (m : Metrics) : Nat :=
  qualifiedLevelWalkUseProfile m LEVEL_REQUIREMENTS 1

/-- The four numeric thresholds (plus level number) of a `LEVEL_REQUIREMENTS`
entry, as a `levelRequirements`-shaped entry, for element-wise comparison of
the two ladders. -/
def toRequirement (r : LevelRequirements) : Requirement :=
  { level := r.level, words := r.minWordsLearned, accuracy := r.minAccuracy,
    streak := r.minStreakDays, time := r.minPracticeTime }

/-- Daily goal type tags, `'words' | 'time' | 'accuracy'` in the source. -/
inductive GoalType where
  | words
  | time
  | accuracy
deriving DecidableEq

/-- A `daily_goals` row for one (user, goal type, date); the
`UNIQUE(user_id, goal_type, goal_date)` constraint of the migration means a
user has at most one row per type per day. -/
structure DailyGoal where
  goal_type : GoalType
  target_value : Int
  current_value : Int
  completed : Bool
deriving DecidableEq

/-- The `app_settings` field the engine reads (`daily_word_goal`). -/
structure AppSettings where
  daily_word_goal : Int
deriving DecidableEq

/-- `settings?.daily_word_goal || 10`: the configured daily word goal, with the
JS `||` default kicking in when settings are absent or the stored value is the
falsy `0`. -/
def dailyWordGoalOf (settings : Option AppSettings) : Int :=
  match settings with
  | some s => if s.daily_word_goal = 0 then 10 else s.daily_word_goal
  | none => 10

/-- The row update issued by `updateDailyGoals` for goal type `t`: every row of
that type gets the new current value `nv` and `completed := nv >= tgt`, where
`nv` and `tgt` were computed from the row `find` returned; other rows are
untouched. -/
def updateGoalRow (t : GoalType) (nv tgt : Int) (g : DailyGoal) : DailyGoal :=
  if g.goal_type = t then
    { g with current_value := nv, completed := decide (nv ≥ tgt) }
  else g

/-- One per-type pass of `updateDailyGoals`: look the type up in the fetched
rows `goals` (`currentGoals.find(...)`); if present, update the rows of that
type in the accumulated state `cur` with the merged current value
`f current_value` and recomputed completion; if absent, do nothing. -/
def goalPass (goals : List DailyGoal) (t : GoalType) (f : Int → Int)
    (cur : List DailyGoal) : List DailyGoal :=
  match goals.find? (fun g => decide (g.goal_type = t)) with
  | some g => cur.map (updateGoalRow t (f g.current_value) g.target_value)
  | none => cur

/-- The three default rows inserted by `updateDailyGoals` when no row exists
for today: words (target = configured daily word goal), time (target 30
minutes) and accuracy (target 80), each seeded with the session's contribution
and `completed` set accordingly. -/
def defaultDailyGoals (settings : Option AppSettings) (wordsLearned : Nat)
    (practiceTime : Nat) (accuracy : ℚ) : List DailyGoal :=
  [ { goal_type := GoalType.words
      target_value := dailyWordGoalOf settings
      current_value := (wordsLearned : Int)
      completed := decide ((wordsLearned : Int) ≥ dailyWordGoalOf settings) }
  , { goal_type := GoalType.time
      target_value := 30
      current_value := ((practiceTime / 60 : Nat) : Int)
      completed := decide (((practiceTime / 60 : Nat) : Int) ≥ 30) }
  , { goal_type := GoalType.accuracy
      target_value := 80
      current_value := Int.floor accuracy
      completed := decide (Int.floor accuracy ≥ 80) } ]

/-- `updateDailyGoals` from useLearningSession, acting on today's fetched
`daily_goals` rows: three per-type passes (words: add the session's word
count; time: add `Math.floor(practiceTime / 60)` minutes; accuracy: take the
max of the current value and `Math.floor(accuracy)`), each recomputing
`completed`; then, when *no* row existed for today, insert the three default
rows. -/
def updateDailyGoals (settings : Option AppSettings) (goals : List DailyGoal)
    (wordsLearned : Nat) (practiceTime : Nat) (accuracy : ℚ) : List DailyGoal :=
  let goals1 := goalPass goals GoalType.words (fun c => c + (wordsLearned : Int)) goals
  let goals2 := goalPass goals GoalType.time (fun c => c + ((practiceTime / 60 : Nat) : Int)) goals1
  let goals3 := goalPass goals GoalType.accuracy (fun c => max c (Int.floor accuracy)) goals2
  if goals.isEmpty then
    goals3 ++ defaultDailyGoals settings wordsLearned practiceTime accuracy
  else goals3

/-- `updateStreak` from useLearningSession: read today's words-goal row
(`todayWordsCurrent`, `none` when the read returns no row), form
`totalWordsToday = (todayGoal?.current_value || 0) + wordsLearned`, and when it
reaches the configured daily word goal bump `current_streak` and refresh
`longest_streak`; otherwise leave the profile unchanged. -/
def updateStreak (settings : AppSettings) (todayWordsCurrent : Option Int)
    (profile : Profile) (wordsLearned : Nat) : Profile :=
  let dailyGoal := dailyWordGoalOf (some settings)
  let totalWordsToday := todayWordsCurrent.getD 0 + (wordsLearned : Int)
  if totalWordsToday ≥ dailyGoal then
    { profile with
      current_streak := profile.current_streak + 1
      longest_streak := max (profile.current_streak + 1) profile.longest_streak }
  else profile

/-- The goal/streak slice of `endSession`'s finalization pipeline: first
`updateDailyGoals` applies the session's contribution, then `updateStreak`
reads back today's words-goal row (which now already includes that
contribution) and decides whether to advance the streak. -/
def endSessionGoalsAndStreak (settings : AppSettings) (goals : List DailyGoal)
    (profile : Profile) (wordsLearned : Nat) (practiceTime : Nat)
    (accuracy : ℚ) : List DailyGoal × Profile :=
  let goals2 := updateDailyGoals (some settings) goals wordsLearned practiceTime accuracy
  let todayWordsCurrent :=
    (goals2.find? (fun g => decide (g.goal_type = GoalType.words))).map
      (fun g => g.current_value)
  (goals2, updateStreak settings todayWordsCurrent profile wordsLearned)

/-! ## Supporting lemmas -/

/-- The SQL `CASE` of `update_word_progress` and the specification's tier table
are the same function of the post-increment counts. -/
theorem masteryLevelCase_eq_spec : masteryLevelCase = masteryTierSpec := rfl

/-- `addWordToSession` preserves the accumulator invariant. -/
theorem addWordToSession_inv (s : Session) (word : String) (c : Bool) (d : Difficulty)
    (h1 : s.totalAttempts = s.wordsPracticed.length)
    (h2 : s.correctPronunciations ≤ s.totalAttempts) :
    (addWordToSession s word c d).totalAttempts =
        (addWordToSession s word c d).wordsPracticed.length ∧
      (addWordToSession s word c d).correctPronunciations ≤
        (addWordToSession s word c d).totalAttempts := by
  constructor
  · simp [addWordToSession, h1]
  · cases c <;> simp [addWordToSession] <;> omega

/-- Folding attempt events preserves the accumulator invariant. -/
theorem foldl_addWord_inv (events : List (String × Bool × Difficulty)) :
    ∀ s : Session,
      s.totalAttempts = s.wordsPracticed.length →
      s.correctPronunciations ≤ s.totalAttempts →
      (events.foldl (fun s e => addWordToSession s e.1 e.2.1 e.2.2) s).totalAttempts =
          (events.foldl (fun s e => addWordToSession s e.1 e.2.1 e.2.2) s).wordsPracticed.length ∧
        (events.foldl (fun s e => addWordToSession s e.1 e.2.1 e.2.2) s).correctPronunciations ≤
          (events.foldl (fun s e => addWordToSession s e.1 e.2.1 e.2.2) s).totalAttempts := by
  induction events with
  | nil => intro s h1 h2; exact ⟨h1, h2⟩
  | cons e es ih =>
      intro s h1 h2
      obtain ⟨h1', h2'⟩ := addWordToSession_inv s e.1 e.2.1 e.2.2 h1 h2
      exact ih _ h1' h2'

/-- The guarded accuracy is never negative. -/
theorem accuracyRate_nonneg (s : Session) : 0 ≤ accuracyRate s := by
  unfold accuracyRate
  split
  · positivity
  · exact le_refl 0

/-- The guarded accuracy is at most 100 whenever correct ≤ attempts. -/
theorem accuracyRate_le_100 (s : Session)
    (h : s.correctPronunciations ≤ s.totalAttempts) : accuracyRate s ≤ 100 := by
  unfold accuracyRate
  split
  case isTrue hpos =>
    have hq : (s.correctPronunciations : ℚ) / (s.totalAttempts : ℚ) ≤ 1 := by
      rw [div_le_one (by exact_mod_cast hpos)]
      exact_mod_cast h
    linarith
  case isFalse => norm_num

/-- One `update_word_progress` call preserves `times_correct ≤ times_practiced`
(vacuously true precondition for the row-creating call). -/
theorem update_word_progress_le (row : Option WordProgress) (word : String)
    (d : Difficulty) (c : Bool)
    (h : ∀ w, row = some w → w.times_correct ≤ w.times_practiced) :
    (update_word_progress row word d c).times_correct ≤
      (update_word_progress row word d c).times_practiced := by
  cases row with
  | none => cases c <;> simp [update_word_progress]
  | some w =>
      have hw := h w rfl
      cases c <;> simp [update_word_progress] <;> omega

/-- Folding attempts through `update_word_progress` preserves the counter
invariant. -/
theorem foldl_word_progress_inv (word : String) (d : Difficulty)
    (events : List Bool) :
    ∀ st : Option WordProgress,
      (∀ w, st = some w → w.times_correct ≤ w.times_practiced) →
      ∀ r, events.foldl
          (fun st correct => some (update_word_progress st word d correct)) st = some r →
        r.times_correct ≤ r.times_practiced := by
  induction events with
  | nil =>
      intro st hst r hr
      exact hst r hr
  | cons e es ih =>
      intro st hst r hr
      refine ih _ ?_ r hr
      intro w hw
      cases hw
      exact update_word_progress_le st word d e hst

/-! ## Claim theorems -/

/-- C5: `update_user_stats` adds the two deltas to the lifetime totals,
replaces `accuracy_rate` by the unguarded two-point average
`(accuracy_rate + sessionAccuracy) / 2` for an arbitrary `sessionAccuracy`,
and leaves `level`, `current_streak` and `longest_streak` unchanged. -/
theorem update_user_stats_spec (p : Profile) (wordsLearnedDelta : Nat)
    (practiceTimeSecondsDelta : Nat) (sessionAccuracy : ℚ) :
    (update_user_stats p wordsLearnedDelta practiceTimeSecondsDelta sessionAccuracy).total_words_learned =
        p.total_words_learned + wordsLearnedDelta ∧
      (update_user_stats p wordsLearnedDelta practiceTimeSecondsDelta sessionAccuracy).total_practice_time =
        p.total_practice_time + practiceTimeSecondsDelta ∧
      (update_user_stats p wordsLearnedDelta practiceTimeSecondsDelta sessionAccuracy).accuracy_rate =
        (p.accuracy_rate + sessionAccuracy) / 2 ∧
      (update_user_stats p wordsLearnedDelta practiceTimeSecondsDelta sessionAccuracy).level = p.level ∧
      (update_user_stats p wordsLearnedDelta practiceTimeSecondsDelta sessionAccuracy).current_streak =
        p.current_streak ∧
      (update_user_stats p wordsLearnedDelta practiceTimeSecondsDelta sessionAccuracy).longest_streak =
        p.longest_streak :=
  ⟨rfl, rfl, rfl, rfl, rfl, rfl⟩

/-- C8: the accuracy of `endSession` is guarded on `totalAttempts`: it is `0`
when `totalAttempts = 0` (the division is never evaluated) and
`correctPronunciations / totalAttempts * 100` when `totalAttempts > 0`. -/
theorem endSession_accuracy_guarded (s : Session) :
    (s.totalAttempts = 0 → accuracyRate s = 0) ∧
      (0 < s.totalAttempts →
        accuracyRate s = (s.correctPronunciations : ℚ) / (s.totalAttempts : ℚ) * 100) := by
  constructor
  · intro h
    simp [accuracyRate, h]
  · intro h
    rw [accuracyRate, if_pos h]

/-- Witness for C8 at a concrete empty session and a concrete one-attempt
session. -/
theorem endSession_accuracy_guarded_witness :
    accuracyRate ⟨SessionType.practice, 0, [], 0, 0⟩ = 0 ∧
      accuracyRate ⟨SessionType.practice, 0, ["cat"], 1, 1⟩ =
        ((⟨SessionType.practice, 0, ["cat"], 1, 1⟩ : Session).correctPronunciations : ℚ) /
          ((⟨SessionType.practice, 0, ["cat"], 1, 1⟩ : Session).totalAttempts : ℚ) * 100 :=
  ⟨(endSession_accuracy_guarded ⟨SessionType.practice, 0, [], 0, 0⟩).1 rfl,
   (endSession_accuracy_guarded ⟨SessionType.practice, 0, ["cat"], 1, 1⟩).2 (by decide)⟩

/-- C10: any session built by `startSession` followed by `addWordToSession`
calls has `totalAttempts` equal to the length of `wordsPracticed` and
`correctPronunciations ≤ totalAttempts`, and therefore its `endSession`
accuracy lies in [0, 100]. -/
theorem session_accumulator_invariant (sessionType : SessionType) (now : Nat)
    (events : List (String × Bool × Difficulty)) :
    (runSessionEvents sessionType now events).totalAttempts =
        (runSessionEvents sessionType now events).wordsPracticed.length ∧
      (runSessionEvents sessionType now events).correctPronunciations ≤
        (runSessionEvents sessionType now events).totalAttempts ∧
      0 ≤ accuracyRate (runSessionEvents sessionType now events) ∧
      accuracyRate (runSessionEvents sessionType now events) ≤ 100 := by
  obtain ⟨h1, h2⟩ := foldl_addWord_inv events (startSession sessionType now) rfl (le_refl 0)
  exact ⟨h1, h2, accuracyRate_nonneg _, accuracyRate_le_100 _ h2⟩

/-- C7: after any finite sequence of `update_word_progress` calls for one
(user, word) pair starting from no row, the row satisfies
`times_correct ≤ times_practiced`. -/
theorem word_progress_counts_invariant (word : String) (d : Difficulty)
    (events : List Bool) (r : WordProgress)
    (h : runWordProgress word d events = some r) :
    r.times_correct ≤ r.times_practiced := by
  refine foldl_word_progress_inv word d events none ?_ r h
  intro w hw
  cases hw

/-- Witness for C7 after the single-attempt sequence `[true]`. -/
theorem word_progress_counts_invariant_witness :
    ({ word := "cat", difficulty := Difficulty.easy, times_practiced := 1,
       times_correct := 1, mastery_level := 0 } : WordProgress).times_correct ≤
      ({ word := "cat", difficulty := Difficulty.easy, times_practiced := 1,
         times_correct := 1, mastery_level := 0 } : WordProgress).times_practiced :=
  word_progress_counts_invariant "cat" Difficulty.easy [true] _ rfl

/-- C3 counterexample: the first call for a (user, word) pair — a correct first
attempt — stores post-increment counts (1, 1), for which the specification's
tier table gives 50, but the inserted row's `mastery_level` is the column
default 0 (the `INSERT` branch of `update_word_progress` does not assign
`mastery_level`). -/
theorem update_word_progress_first_call_counterexample :
    (update_word_progress none "cat" Difficulty.easy true).times_practiced = 1 ∧
      (update_word_progress none "cat" Difficulty.easy true).times_correct = 1 ∧
      masteryTierSpec 1 1 = 50 ∧
      (update_word_progress none "cat" Difficulty.easy true).mastery_level = 0 := by
  refine ⟨rfl, rfl, ?_, rfl⟩
  norm_num [masteryTierSpec]

/-- C3 (amended): on every call that finds an existing row (the `ON CONFLICT`
branch), the stored `mastery_level` equals the tier derived from the
post-increment counts; the row-creating first call instead leaves
`mastery_level` at the schema default 0. -/
theorem update_word_progress_mastery (row : Option WordProgress) (word : String)
    (d : Difficulty) (c : Bool) :
    (∀ w, row = some w →
        (update_word_progress row word d c).mastery_level =
          masteryTierSpec (w.times_practiced + 1)
            (w.times_correct + if c then 1 else 0)) ∧
      (row = none → (update_word_progress row word d c).mastery_level = 0) := by
  constructor
  · rintro w rfl
    rw [show (update_word_progress (some w) word d c).mastery_level =
        masteryLevelCase (w.times_practiced + 1)
          (w.times_correct + if c then 1 else 0) from rfl,
      masteryLevelCase_eq_spec]
  · rintro rfl
    rfl

/-- Witness for C3 (amended): a second attempt on a 1-of-1 row, and a first
attempt on a missing row. -/
theorem update_word_progress_mastery_witness :
    (update_word_progress
        (some { word := "cat", difficulty := Difficulty.easy, times_practiced := 1,
                times_correct := 1, mastery_level := 0 }) "cat" Difficulty.easy true).mastery_level =
        masteryTierSpec
          (({ word := "cat", difficulty := Difficulty.easy, times_practiced := 1,
              times_correct := 1, mastery_level := 0 } : WordProgress).times_practiced + 1)
          (({ word := "cat", difficulty := Difficulty.easy, times_practiced := 1,
              times_correct := 1, mastery_level := 0 } : WordProgress).times_correct +
            if true then 1 else 0) ∧
      (update_word_progress none "cat" Difficulty.easy true).mastery_level = 0 :=
  ⟨(update_word_progress_mastery
      (some { word := "cat", difficulty := Difficulty.easy, times_practiced := 1,
              times_correct := 1, mastery_level := 0 }) "cat" Difficulty.easy true).1 _ rfl,
   (update_word_progress_mastery none "cat" Difficulty.easy true).2 rfl⟩

/-- The useProfile meets-test agrees with the useLearningSession one through
`toRequirement`. -/
theorem meetsRequirementsUseProfile_eq (m : Metrics) (r : LevelRequirements) :
    meetsRequirementsUseProfile m r = meetsRequirements m (toRequirement r) := rfl

/-- The two ladder walks agree through `toRequirement`, entry by entry. -/
theorem qualifiedLevelWalkUseProfile_eq (m : Metrics) :
    ∀ (rs : List LevelRequirements) (q : Nat),
      qualifiedLevelWalkUseProfile m rs q =
        qualifiedLevelWalk m (rs.map toRequirement) q := by
  intro rs
  induction rs with
  | nil => intro q; rfl
  | cons r rs ih =>
      intro q
      simp only [qualifiedLevelWalkUseProfile, qualifiedLevelWalk, List.map_cons,
        meetsRequirementsUseProfile_eq]
      split
      · exact ih r.level
      · rfl

/-- C9: the two independent level-qualification implementations agree: the
four numeric thresholds (and level numbers) of the two 10-entry ladders are
element-wise equal, and the two contiguous walks compute the same qualified
level on every metric tuple. -/
theorem level_ladders_equivalent :
    LEVEL_REQUIREMENTS.map toRequirement = levelRequirements ∧
      ∀ m : Metrics, qualifiedLevelUseProfile m = qualifiedLevel m := by
  constructor
  · rfl
  · intro m
    rw [qualifiedLevelUseProfile, qualifiedLevelWalkUseProfile_eq m LEVEL_REQUIREMENTS 1]
    rfl

/-- C1: when the computed qualified level exceeds the stored level, the
profile's level becomes that qualified level and exactly one `level_up`
achievement is inserted, titled with the final qualified level (milestone
achievements at 5 and 10 carry type `milestone`, not `level_up`); when the
qualified level is at most the stored level, profile and achievements are
untouched.  In both cases the level never decreases. -/
theorem checkLevelProgression_transition (profile : Profile) (masteredWords : Nat) :
    (qualifiedLevel (metricsOf profile masteredWords) > profile.level →
        (checkLevelProgression profile masteredWords).1.level =
          qualifiedLevel (metricsOf profile masteredWords) ∧
        (checkLevelProgression profile masteredWords).2.filter
            (fun a => decide (a.achievement_type = AchievementType.level_up)) =
          [{ achievement_type := AchievementType.level_up
             title := "Level " ++ toString (qualifiedLevel (metricsOf profile masteredWords)) ++
               " Reached!"
             icon := getLevelIcon (qualifiedLevel (metricsOf profile masteredWords)) }]) ∧
      (qualifiedLevel (metricsOf profile masteredWords) ≤ profile.level →
        (checkLevelProgression profile masteredWords).1 = profile ∧
        (checkLevelProgression profile masteredWords).2 = []) ∧
      profile.level ≤ (checkLevelProgression profile masteredWords).1.level := by
  by_cases h : qualifiedLevel (metricsOf profile masteredWords) > profile.level
  · refine ⟨fun _ => ⟨?_, ?_⟩, fun h' => absurd h (not_lt.mpr h'), ?_⟩
    · simp [checkLevelProgression, h]
    · simp only [checkLevelProgression, h, if_true]
      split_ifs <;> simp [List.filter]
    · simp only [checkLevelProgression, h, if_true]
      exact le_of_lt h
  · refine ⟨fun h' => absurd h' h, fun _ => ?_, ?_⟩
    · simp [checkLevelProgression, h]
    · simp [checkLevelProgression, h]

/-- Witness for C1: a level-1 profile qualifying for level 2, and a profile
already at level 10 qualifying for no more than 10. -/
theorem checkLevelProgression_transition_witness :
    ((checkLevelProgression ⟨1, 0, 1800, 60, 3, 3⟩ 25).1.level =
        qualifiedLevel (metricsOf ⟨1, 0, 1800, 60, 3, 3⟩ 25) ∧
      (checkLevelProgression ⟨1, 0, 1800, 60, 3, 3⟩ 25).2.filter
          (fun a => decide (a.achievement_type = AchievementType.level_up)) =
        [{ achievement_type := AchievementType.level_up
           title := "Level " ++ toString (qualifiedLevel (metricsOf ⟨1, 0, 1800, 60, 3, 3⟩ 25)) ++
             " Reached!"
           icon := getLevelIcon (qualifiedLevel (metricsOf ⟨1, 0, 1800, 60, 3, 3⟩ 25)) }]) ∧
      ((checkLevelProgression ⟨10, 0, 0, 0, 0, 0⟩ 0).1 = (⟨10, 0, 0, 0, 0, 0⟩ : Profile) ∧
        (checkLevelProgression ⟨10, 0, 0, 0, 0, 0⟩ 0).2 = []) :=
  ⟨(checkLevelProgression_transition ⟨1, 0, 1800, 60, 3, 3⟩ 25).1 (by decide),
   (checkLevelProgression_transition ⟨10, 0, 0, 0, 0, 0⟩ 0).2.1 (by decide)⟩

/-- `takeWhile` is the take of its own length. -/
theorem takeWhile_eq_take_length {α : Type} (p : α → Bool) :
    ∀ l : List α, l.takeWhile p = l.take (l.takeWhile p).length := by
  intro l
  induction l with
  | nil => rfl
  | cons a l ih =>
      by_cases h : p a
      · rw [List.takeWhile_cons_of_pos h, List.length_cons, List.take_succ_cons, ← ih]
      · rw [List.takeWhile_cons_of_neg h]
        rfl

/-- If the first `k` elements all satisfy `p`, the `takeWhile` run is at least
`k` long. -/
theorem le_length_takeWhile_of_all {α : Type} (p : α → Bool) :
    ∀ (l : List α) (k : Nat), k ≤ l.length →
      (∀ x ∈ l.take k, p x = true) → k ≤ (l.takeWhile p).length := by
  intro l
  induction l with
  | nil => intro k hk _; simpa using hk
  | cons a l ih =>
      intro k hk hall
      cases k with
      | zero => exact Nat.zero_le _
      | succ k =>
          have hpa : p a = true := hall a (by simp)
          rw [List.takeWhile_cons_of_pos hpa, List.length_cons]
          have := ih k (by simpa using hk)
            (fun x hx => hall x (by rw [List.take_succ_cons]; exact List.mem_cons_of_mem a hx))
          omega

/-- The ladder walk counts the leading run of satisfied entries: on a segment
whose levels are `a, a+1, ...` it returns the accumulator when the first entry
fails, and otherwise the level of the last satisfied entry. -/
theorem qualifiedLevelWalk_takeWhile (m : Metrics) :
    ∀ (rs : List Requirement) (a q : Nat),
      rs.map Requirement.level = List.range' a rs.length →
      qualifiedLevelWalk m rs q =
        if (rs.takeWhile (meetsRequirements m)).length = 0 then q
        else a + (rs.takeWhile (meetsRequirements m)).length - 1 := by
  intro rs
  induction rs with
  | nil => intro a q _; rfl
  | cons r rs ih =>
      intro a q hmap
      rw [List.length_cons, List.range'_succ, List.map_cons] at hmap
      have hr : r.level = a := (List.cons.injEq _ _ _ _ ▸ hmap).1
      have hrs : rs.map Requirement.level = List.range' (a + 1) rs.length :=
        (List.cons.injEq _ _ _ _ ▸ hmap).2
      by_cases hm : meetsRequirements m r = true
      · rw [qualifiedLevelWalk, if_pos hm, hr, ih (a + 1) a hrs,
          List.takeWhile_cons_of_pos hm, List.length_cons,
          if_neg (Nat.succ_ne_zero _)]
        split_ifs with h0 <;> omega
      · rw [qualifiedLevelWalk, if_neg hm, List.takeWhile_cons_of_neg hm]
        rfl

/-- The levels of the ladder entries are `1, 2, ..., 10` in order. -/
theorem levelRequirements_levels :
    levelRequirements.map Requirement.level = List.range' 1 levelRequirements.length := by decide

/-- The qualified level is the length of the leading satisfied run, floored at
level 1. -/
theorem qualifiedLevel_eq_max (m : Metrics) :
    qualifiedLevel m =
      max 1 (levelRequirements.takeWhile (meetsRequirements m)).length := by
  rw [qualifiedLevel,
    qualifiedLevelWalk_takeWhile m levelRequirements 1 1 levelRequirements_levels]
  split_ifs with h <;> omega

/-- The four thresholds of the ladder are monotone in the level number. -/
theorem levelRequirements_mono :
    ∀ r ∈ levelRequirements, ∀ s ∈ levelRequirements, s.level ≤ r.level →
      s.words ≤ r.words ∧ s.accuracy ≤ r.accuracy ∧ s.streak ≤ r.streak ∧
        s.time ≤ r.time := by decide

/-- Meeting a ladder entry implies meeting every lower entry. -/
theorem meetsRequirements_mono (m : Metrics) {r s : Requirement}
    (hr : r ∈ levelRequirements) (hs : s ∈ levelRequirements)
    (hle : s.level ≤ r.level) (h : meetsRequirements m r = true) :
    meetsRequirements m s = true := by
  obtain ⟨h1, h2, h3, h4⟩ := levelRequirements_mono r hr s hs hle
  simp only [meetsRequirements, Bool.and_eq_true, decide_eq_true_eq] at h ⊢
  refine ⟨⟨⟨le_trans h1 h.1.1.1, le_trans ?_ h.1.1.2⟩, le_trans h3 h.1.2⟩,
    le_trans h4 h.2⟩
  exact_mod_cast Nat.cast_le.mpr h2

/-- A non-negative accuracy meets the all-zero level-1 entry. -/
theorem meetsRequirements_first (m : Metrics) (hacc : 0 ≤ m.accuracy) :
    meetsRequirements m
      { level := 1, words := 0, accuracy := 0, streak := 0, time := 0 } = true := by
  simp [meetsRequirements]
  exact_mod_cast hacc

/-- C2: for every metric tuple (with the non-negative accuracy the engine
maintains), qualification is monotone and contiguous: every ladder entry whose
level is at most the computed qualified level is met, the first
`qualifiedLevel` entries are all met, and any prefix of entries that are all
met has length at most `qualifiedLevel` — i.e. the walk stops at the first
unmet level and returns the highest contiguously satisfied level. -/
theorem qualifiedLevel_contiguous (m : Metrics) (hacc : 0 ≤ m.accuracy) :
    (∀ r ∈ levelRequirements, r.level ≤ qualifiedLevel m →
        meetsRequirements m r = true) ∧
      (levelRequirements.take (qualifiedLevel m)).all (meetsRequirements m) = true ∧
      (∀ k, k ≤ levelRequirements.length →
        (levelRequirements.take k).all (meetsRequirements m) = true →
        k ≤ qualifiedLevel m) := by
  have hlen : levelRequirements.length = 10 := rfl
  have hlc1 : 1 ≤ (levelRequirements.takeWhile (meetsRequirements m)).length := by
    rw [show levelRequirements.takeWhile (meetsRequirements m) =
        { level := 1, words := 0, accuracy := 0, streak := 0, time := 0 } ::
          (levelRequirements.tail.takeWhile (meetsRequirements m)) from
      List.takeWhile_cons_of_pos (meetsRequirements_first m hacc)]
    simp
  have hlc10 : (levelRequirements.takeWhile (meetsRequirements m)).length ≤ 10 := by
    have h := congrArg List.length
      (takeWhile_eq_take_length (meetsRequirements m) levelRequirements)
    rw [List.length_take, hlen] at h
    omega
  have hq : qualifiedLevel m = (levelRequirements.takeWhile (meetsRequirements m)).length := by
    rw [qualifiedLevel_eq_max]
    omega
  have htake : levelRequirements.take (qualifiedLevel m) =
      levelRequirements.takeWhile (meetsRequirements m) := by
    rw [hq]
    exact (takeWhile_eq_take_length _ _).symm
  refine ⟨?_, ?_, ?_⟩
  · intro r hr hrl
    have hL1 : 1 ≤ qualifiedLevel m := hq ▸ hlc1
    have hL10 : qualifiedLevel m ≤ 10 := hq ▸ hlc10
    have hlt : qualifiedLevel m - 1 < (levelRequirements.take (qualifiedLevel m)).length := by
      rw [List.length_take, hlen]
      omega
    have hlt' : qualifiedLevel m - 1 < levelRequirements.length := by
      rw [hlen]; omega
    have hgt : (levelRequirements.take (qualifiedLevel m)).get ⟨qualifiedLevel m - 1, hlt⟩ =
        levelRequirements.get ⟨qualifiedLevel m - 1, hlt'⟩ := by
      simp [List.get_eq_getElem, List.getElem_take]
    have hmem0 : levelRequirements.get ⟨qualifiedLevel m - 1, hlt'⟩ ∈
        levelRequirements.takeWhile (meetsRequirements m) := by
      rw [← htake, ← hgt]
      exact List.get_mem _ _ _
    have hmeets0 : meetsRequirements m
        (levelRequirements.get ⟨qualifiedLevel m - 1, hlt'⟩) = true :=
      List.mem_takeWhile_imp hmem0
    have hmem1 : levelRequirements.get ⟨qualifiedLevel m - 1, hlt'⟩ ∈ levelRequirements :=
      List.get_mem _ _ _
    have hlev : ∀ i : Fin 10,
        (levelRequirements.get ⟨i.val, i.isLt⟩).level = i.val + 1 := by decide
    have hlev' : (levelRequirements.get ⟨qualifiedLevel m - 1, hlt'⟩).level = qualifiedLevel m := by
      have h10 : qualifiedLevel m - 1 < 10 := by omega
      have h2 : (levelRequirements.get ⟨qualifiedLevel m - 1, hlt'⟩).level =
          (qualifiedLevel m - 1) + 1 := hlev ⟨qualifiedLevel m - 1, h10⟩
      rw [h2]
      omega
    refine meetsRequirements_mono m hmem1 hr ?_ hmeets0
    rw [hlev']
    exact hrl
  · rw [htake]
    exact List.all_eq_true.mpr (fun x hx => List.mem_takeWhile_imp hx)
  · intro k hk hall
    have := le_length_takeWhile_of_all (meetsRequirements m) levelRequirements k hk
      (fun x hx => List.all_eq_true.mp hall x hx)
    omega

/-- Witness for C2 at the concrete metric tuple (25 mastered words, accuracy
60, streak 3, 30 practice minutes). -/
theorem qualifiedLevel_contiguous_witness :
    (∀ r ∈ levelRequirements, r.level ≤ qualifiedLevel ⟨25, 60, 3, 30⟩ →
        meetsRequirements ⟨25, 60, 3, 30⟩ r = true) ∧
      (levelRequirements.take (qualifiedLevel ⟨25, 60, 3, 30⟩)).all
          (meetsRequirements ⟨25, 60, 3, 30⟩) = true ∧
      (∀ k, k ≤ levelRequirements.length →
        (levelRequirements.take k).all (meetsRequirements ⟨25, 60, 3, 30⟩) = true →
        k ≤ qualifiedLevel ⟨25, 60, 3, 30⟩) :=
  qualifiedLevel_contiguous ⟨25, 60, 3, 30⟩ (by norm_num)

/-- `updateStreak` advances exactly when the value it read plus the session's
word count reaches the configured daily goal. -/
theorem updateStreak_spec (settings : AppSettings) (cur : Option Int)
    (profile : Profile) (wordsLearned : Nat) :
    (cur.getD 0 + (wordsLearned : Int) ≥ dailyWordGoalOf (some settings) →
        updateStreak settings cur profile wordsLearned =
          { profile with
            current_streak := profile.current_streak + 1
            longest_streak := max (profile.current_streak + 1) profile.longest_streak }) ∧
      (¬(cur.getD 0 + (wordsLearned : Int) ≥ dailyWordGoalOf (some settings)) →
        updateStreak settings cur profile wordsLearned = profile) := by
  constructor <;> intro h <;> simp [updateStreak, h]

/-- C4 counterexample: with daily word goal 10, no goal rows yet, and a
5-word session, the words goal ends at 5 of 10 (not completed), yet the
streak is advanced from 3 to 4, because the streak check re-adds the
session's 5 words to the already-updated goal value. -/
theorem updateStreak_counterexample :
    (endSessionGoalsAndStreak ⟨10⟩ [] ⟨1, 0, 0, 0, 3, 3⟩ 5 0 0).2.current_streak = 4 ∧
      (endSessionGoalsAndStreak ⟨10⟩ [] ⟨1, 0, 0, 0, 3, 3⟩ 5 0 0).2.longest_streak = 4 ∧
      ((endSessionGoalsAndStreak ⟨10⟩ [] ⟨1, 0, 0, 0, 3, 3⟩ 5 0 0).1.find?
          (fun g => decide (g.goal_type = GoalType.words))).map
        (fun g => (g.current_value, g.target_value, g.completed)) = some (5, 10, false) ∧
      ¬((5 : Int) ≥ (10 : Int)) := by decide

/-- C4 (amended): the streak advances iff the post-update words-goal value
plus the session's word count (counted a second time) reaches the configured
daily word goal; otherwise the profile is untouched. -/
theorem endSessionStreak_amended (settings : AppSettings) (goals : List DailyGoal)
    (profile : Profile) (wordsLearned practiceTime : Nat) (accuracy : ℚ) :
    ((((endSessionGoalsAndStreak settings goals profile wordsLearned practiceTime accuracy).1.find?
            (fun g => decide (g.goal_type = GoalType.words))).map
          (fun g => g.current_value)).getD 0 + (wordsLearned : Int) ≥
        dailyWordGoalOf (some settings) →
        (endSessionGoalsAndStreak settings goals profile wordsLearned practiceTime accuracy).2 =
          { profile with
            current_streak := profile.current_streak + 1
            longest_streak := max (profile.current_streak + 1) profile.longest_streak }) ∧
      (¬((((endSessionGoalsAndStreak settings goals profile wordsLearned practiceTime accuracy).1.find?
            (fun g => decide (g.goal_type = GoalType.words))).map
          (fun g => g.current_value)).getD 0 + (wordsLearned : Int) ≥
        dailyWordGoalOf (some settings)) →
        (endSessionGoalsAndStreak settings goals profile wordsLearned practiceTime accuracy).2 =
          profile) :=
  ⟨fun h => (updateStreak_spec settings _ profile wordsLearned).1 h,
   fun h => (updateStreak_spec settings _ profile wordsLearned).2 h⟩

/-- Witness for C4 (amended) at concrete inputs on both sides of the
threshold. -/
theorem endSessionStreak_amended_witness :
    (endSessionGoalsAndStreak ⟨10⟩ [] ⟨1, 0, 0, 0, 3, 3⟩ 10 0 0).2 =
        { (⟨1, 0, 0, 0, 3, 3⟩ : Profile) with
          current_streak := 3 + 1
          longest_streak := max (3 + 1) 3 } ∧
      (endSessionGoalsAndStreak ⟨10⟩ [] ⟨1, 0, 0, 0, 3, 3⟩ 2 0 0).2 =
        (⟨1, 0, 0, 0, 3, 3⟩ : Profile) :=
  ⟨(endSessionStreak_amended ⟨10⟩ [] ⟨1, 0, 0, 0, 3, 3⟩ 10 0 0).1 (by decide),
   (endSessionStreak_amended ⟨10⟩ [] ⟨1, 0, 0, 0, 3, 3⟩ 2 0 0).2 (by decide)⟩

/-- In a list of goal rows with pairwise distinct types, type determines the
row. -/
theorem goalType_unique {goals : List DailyGoal}
    (hnd : goals.Pairwise (fun a b => a.goal_type ≠ b.goal_type)) :
    ∀ g ∈ goals, ∀ h ∈ goals, g.goal_type = h.goal_type → g = h := by
  induction goals with
  | nil => intro g hg; cases hg
  | cons x xs ih =>
      intro g hg h hh htype
      rcases List.pairwise_cons.mp hnd with ⟨hx, hxs⟩
      rcases List.mem_cons.mp hg with hg1 | hg1 <;> rcases List.mem_cons.mp hh with hh1 | hh1
      · rw [hg1, hh1]
      · subst hg1; exact absurd htype (hx h hh1)
      · subst hh1; exact absurd htype.symm (hx g hg1)
      · exact ih hxs g hg1 h hh1 htype

/-- A per-type pass keeps each row's type and target, tracing it to a row of
the accumulated state. -/
theorem goalPass_track {goals cur : List DailyGoal} {t : GoalType} {f : Int → Int} :
    ∀ g' ∈ goalPass goals t f cur,
      ∃ x ∈ cur, g'.goal_type = x.goal_type ∧ g'.target_value = x.target_value := by
  intro g' hg'
  unfold goalPass at hg'
  rcases hfind : goals.find? (fun g => decide (g.goal_type = t)) with _ | g0
  · rw [hfind] at hg'
    exact ⟨g', hg', rfl, rfl⟩
  · rw [hfind] at hg'
    rcases List.mem_map.mp hg' with ⟨x, hx, hxe⟩
    refine ⟨x, hx, ?_⟩
    unfold updateGoalRow at hxe
    split at hxe <;> subst hxe <;> exact ⟨rfl, rfl⟩

/-- A per-type pass leaves rows of other types untouched. -/
theorem goalPass_other {goals cur : List DailyGoal} {t : GoalType} {f : Int → Int} :
    ∀ g' ∈ goalPass goals t f cur, g'.goal_type ≠ t → g' ∈ cur := by
  intro g' hg' hne
  unfold goalPass at hg'
  rcases hfind : goals.find? (fun g => decide (g.goal_type = t)) with _ | g0
  · rw [hfind] at hg'
    exact hg'
  · rw [hfind] at hg'
    rcases List.mem_map.mp hg' with ⟨x, hx, hxe⟩
    unfold updateGoalRow at hxe
    split at hxe
    case isTrue hxt =>
      subst hxe
      exact absurd hxt hne
    case isFalse => subst hxe; exact hx

/-- A per-type pass leaves every row of its type with
`completed = (current_value ≥ target_value)`, given that rows trace back to
the pairwise-distinct fetched rows. -/
theorem goalPass_completed {goals cur : List DailyGoal} {t : GoalType} {f : Int → Int}
    (hnd : goals.Pairwise (fun a b => a.goal_type ≠ b.goal_type))
    (htrack : ∀ g' ∈ cur,
      ∃ x ∈ goals, g'.goal_type = x.goal_type ∧ g'.target_value = x.target_value) :
    ∀ g' ∈ goalPass goals t f cur, g'.goal_type = t →
      g'.completed = decide (g'.current_value ≥ g'.target_value) := by
  intro g' hg' hgt
  unfold goalPass at hg'
  rcases hfind : goals.find? (fun g => decide (g.goal_type = t)) with _ | g0
  · rw [hfind] at hg'
    rcases htrack g' hg' with ⟨x, hx, hxt, _⟩
    have := List.find?_eq_none.mp hfind x hx
    rw [hxt] at hgt
    simp [hgt] at this
  · rw [hfind] at hg'
    have hg0t : g0.goal_type = t := by
      have := List.find?_some hfind
      simpa using this
    have hg0mem : g0 ∈ goals := List.mem_of_find?_eq_some hfind
    rcases List.mem_map.mp hg' with ⟨x, hx, hxe⟩
    unfold updateGoalRow at hxe
    split at hxe
    case isTrue hxt =>
      rcases htrack x hx with ⟨y, hy, hyt, hyv⟩
      have hyg0 : y = g0 := by
        refine goalType_unique hnd y hy g0 hg0mem ?_
        rw [← hyt, hxt, hg0t]
      have hxg0 : x.target_value = g0.target_value := by rw [hyv, hyg0]
      subst hxe
      show decide (f g0.current_value ≥ g0.target_value) =
        decide (f g0.current_value ≥ x.target_value)
      rw [hxg0]
    case isFalse hxt =>
      subst hxe
      exact absurd hgt hxt

/-- C6: immediately after `updateDailyGoals` (updates and lazy creation
alike), every daily-goal row satisfies `completed = (current_value ≥
target_value)`, assuming the fetched rows respect the per-(type, day)
uniqueness the table enforces. -/
theorem updateDailyGoals_completed (settings : Option AppSettings)
    (goals : List DailyGoal) (wordsLearned practiceTime : Nat) (accuracy : ℚ)
    (hnd : goals.Pairwise (fun a b => a.goal_type ≠ b.goal_type)) :
    ∀ g ∈ updateDailyGoals settings goals wordsLearned practiceTime accuracy,
      g.completed = decide (g.current_value ≥ g.target_value) := by
  intro g hg
  by_cases hempty : goals.isEmpty
  case pos =>
    have hnil : goals = [] := List.isEmpty_iff.mp hempty
    subst hnil
    have hg' : g ∈ defaultDailyGoals settings wordsLearned practiceTime accuracy := by
      simpa [updateDailyGoals, goalPass] using hg
    simp only [defaultDailyGoals, List.mem_cons, List.not_mem_nil, or_false] at hg'
    rcases hg' with h | h | h <;> subst h <;> rfl
  case neg =>
    have hg3 : g ∈ goalPass goals GoalType.accuracy (fun c => max c (Int.floor accuracy))
        (goalPass goals GoalType.time (fun c => c + ((practiceTime / 60 : Nat) : Int))
          (goalPass goals GoalType.words (fun c => c + (wordsLearned : Int)) goals)) := by
      simpa [updateDailyGoals, hempty] using hg
    have htrack0 : ∀ x ∈ goals,
        ∃ y ∈ goals, x.goal_type = y.goal_type ∧ x.target_value = y.target_value :=
      fun x hx => ⟨x, hx, rfl, rfl⟩
    have htrack1 : ∀ x ∈ goalPass goals GoalType.words (fun c => c + (wordsLearned : Int)) goals,
        ∃ y ∈ goals, x.goal_type = y.goal_type ∧ x.target_value = y.target_value :=
      fun x hx => goalPass_track x hx
    have htrack2 : ∀ x ∈ goalPass goals GoalType.time (fun c => c + ((practiceTime / 60 : Nat) : Int))
          (goalPass goals GoalType.words (fun c => c + (wordsLearned : Int)) goals),
        ∃ y ∈ goals, x.goal_type = y.goal_type ∧ x.target_value = y.target_value := by
      intro x hx
      rcases goalPass_track x hx with ⟨z, hz, h1, h2⟩
      rcases htrack1 z hz with ⟨y, hy, h3, h4⟩
      exact ⟨y, hy, h1.trans h3, h2.trans h4⟩
    cases hgt : g.goal_type
    case words =>
      have h2 := goalPass_other g hg3 (by rw [hgt]; decide)
      have h1 := goalPass_other g h2 (by rw [hgt]; decide)
      exact goalPass_completed hnd htrack0 g h1 hgt
    case time =>
      have h2 := goalPass_other g hg3 (by rw [hgt]; decide)
      exact goalPass_completed hnd htrack1 g h2 hgt
    case accuracy =>
      exact goalPass_completed hnd htrack2 g hg3 hgt

/-- Witness for C6: a pre-existing words row at 3 of 10 updated by a 7-word
session ends completed. -/
theorem updateDailyGoals_completed_witness :
    ({ goal_type := GoalType.words, target_value := 10, current_value := 10,
        completed := true } : DailyGoal).completed =
      decide (({ goal_type := GoalType.words, target_value := 10,
                   current_value := 10, completed := true } : DailyGoal).current_value ≥
          ({ goal_type := GoalType.words, target_value := 10,
               current_value := 10, completed := true } : DailyGoal).target_value) :=
  updateDailyGoals_completed none
    [{ goal_type := GoalType.words, target_value := 10, current_value := 3,
       completed := false }] 7 0 0 (by simp) _ (by decide)

end KidsTutor




